import Mathlib

/-!
Verification development for the AI-HR-Interview-System live coding session
subsystem (src/backend/app/api/ws_coding.py and src/backend/app/api/judge.py).

The Python code is shallowly embedded: handlers become pure Lean functions over
explicit state; `datetime.utcnow()` timestamps are modelled as integer
microseconds (the resolution of Python `datetime`), so the source condition
`(t1 - t0).total_seconds() > 30` becomes `t1 - t0 > 30 * 1000000`; the remote
judge (Judge0) is an oracle parameter giving the outcome of each HTTP fetch;
raising Python code is modelled with `Except`/`Option`.
-/

namespace AIHR

/-! ### Python string primitives -/

/-- Characters removed by Python `str.strip()` (ASCII whitespace; the inputs
here are ASCII program output, so the extra Unicode spaces Python also strips
never occur). -/
def pyWhitespace (c : Char) : Bool :=
  c = ' ' || c = '\t' || c = '\n' || c = '\x0d' || c = '\x0b' || c = '\x0c'

/-- Python `str.strip()`: drop leading and trailing whitespace. -/
def pyStrip (s : String) : String :=
  ⟨((s.data.dropWhile pyWhitespace).reverse.dropWhile pyWhitespace).reverse⟩

/-- Python `str.lower()` (ASCII range, which covers the language names used). -/
def pyLower (s : String) : String :=
  ⟨s.data.map Char.toLower⟩

/-- Python `a or b` for a string-or-None `a`: `None` and `""` are falsy. -/
def pyOrStr (a : Option String) (b : String) : String :=
  match a with
  | none => b
  | some s => if s = "" then b else s

/-- Python truthiness of an optional string field (`if result.get("stdout"):`):
present and non-empty. -/
def pyTruthy (a : Option String) : Bool :=
  match a with
  | none => false
  | some s => s ≠ ""

/-! ### CPython `base64.b64decode` (non-strict mode, as called in judge.py)

Modelled from CPython `binascii.a2b_base64` with `strict_mode=False`, which is
a per-character state machine over (`quad_pos`, `leftchar`, `pads`): alphabet
characters fill the current quad (emitting a byte on its 2nd, 3rd and 4th
character, and resetting `pads`); a `'='` seen while the current quad already
has at least two data characters counts towards completing the quad and, once
`quad_pos + pads ≥ 4`, terminates decoding with the bytes emitted so far
(remaining input is ignored); a `'='` seen earlier in a quad is skipped, as is
any character outside the alphabet; input ending with a partly-filled quad
(`quad_pos ≠ 0`) raises `binascii.Error`.  `base64.b64decode` also
ASCII-encodes a `str` argument up front, raising `ValueError` on any
non-ASCII character. -/

/-- Value of a base64 alphabet character, `none` for non-alphabet characters. -/
def b64Val (c : Char) : Option Nat :=
  if 'A' ≤ c ∧ c ≤ 'Z' then some (c.toNat - 'A'.toNat)
  else if 'a' ≤ c ∧ c ≤ 'z' then some (c.toNat - 'a'.toNat + 26)
  else if '0' ≤ c ∧ c ≤ '9' then some (c.toNat - '0'.toNat + 52)
  else if c = '+' then some 62
  else if c = '/' then some 63
  else none

/-- The per-character state machine of CPython `binascii.a2b_base64`
(non-strict): arguments are the remaining input, the number of data characters
in the current quad (`quad_pos`, 0-3), the pending bits of the current quad
(`leftchar`), the count of pad characters seen since the last data character
(`pads`), and the bytes emitted so far (reversed). -/
def b64decodeLoop : List Char → Nat → Nat → Nat → List Nat → Option (List Nat)
  | [], quadPos, _, _, acc => if quadPos = 0 then some acc.reverse else none
  | c :: rest, quadPos, leftchar, pads, acc =>
    if c = '=' then
      if 2 ≤ quadPos then
        if 4 ≤ quadPos + (pads + 1) then some acc.reverse
        else b64decodeLoop rest quadPos leftchar (pads + 1) acc
      else b64decodeLoop rest quadPos leftchar pads acc
    else
      match b64Val c with
      | none => b64decodeLoop rest quadPos leftchar pads acc
      | some v =>
        match quadPos with
        | 0 => b64decodeLoop rest 1 v 0 acc
        | 1 => b64decodeLoop rest 2 (v % 16) 0 ((leftchar * 4 + v / 16) :: acc)
        | 2 => b64decodeLoop rest 3 (v % 4) 0 ((leftchar * 16 + v / 4) :: acc)
        | _ => b64decodeLoop rest 0 0 0 ((leftchar * 64 + v) :: acc)

/-- CPython `base64.b64decode` on a text payload; `none` models the raise
(`ValueError` for non-ASCII input, `binascii.Error` from `a2b_base64`).
Result is the list of decoded bytes.  (Behaviour checked against CPython on
800+ randomized inputs — valid encodings, junk characters, dense and
mid-stream padding — plus the edge cases `""`, `"a"`, `"ab="`, `"ab=="`,
`"ab=cd"`, `"a=bcd"`, `"ab=c="`, `"abcd==e"`, `"abcd==efgh"`, `"=abcd"`,
`"ab==cd=="`, `"aGk=x"`, `"////"`, and non-ASCII strings.) -/
def b64decode (s : String) : Option (List Nat) :=
  if s.data.any (fun c => 128 ≤ c.toNat) then none
  else b64decodeLoop s.data 0 0 0 []

/-! ### CPython `bytes.decode('utf-8', errors='ignore')`

Total by construction: invalid bytes or invalid continuation sequences are
skipped, never raising.  This models the `errors='ignore'` calls in
`get_submission_result`. -/

/-- A UTF-8 continuation byte. -/
def utf8Cont (b : Nat) : Bool := 0x80 ≤ b ∧ b < 0xC0

/-- First continuation byte check for a 3- or 4-byte lead (CPython rejects
overlong encodings and surrogates at the first continuation byte). -/
def utf8Cont1Ok (b c1 : Nat) : Bool :=
  if b = 0xE0 then decide (0xA0 ≤ c1) && utf8Cont c1
  else if b = 0xED then utf8Cont c1 && decide (c1 < 0xA0)
  else if b = 0xF0 then decide (0x90 ≤ c1) && utf8Cont c1
  else if b = 0xF4 then utf8Cont c1 && decide (c1 < 0x90)
  else utf8Cont c1

/-- `bytes.decode('utf-8', errors='ignore')` as a list of characters: a failed
sequence is skipped up to (not including) the byte that failed validation.
Recursion uses a fuel counter for termination; every step consumes at least one
byte, so fuel equal to the input length (as supplied by `utf8Ignore`) is never
exhausted. -/
def utf8IgnoreAux : Nat → List Nat → List Char
  | 0, _ => []
  | _, [] => []
  | fuel + 1, b :: rest =>
    if b < 0x80 then Char.ofNat b :: utf8IgnoreAux fuel rest
    else if b < 0xC2 then utf8IgnoreAux fuel rest
    else if b < 0xE0 then
      match rest with
      | [] => []
      | c1 :: rest2 =>
        if utf8Cont c1 then Char.ofNat ((b - 0xC0) * 0x40 + (c1 - 0x80)) :: utf8IgnoreAux fuel rest2
        else utf8IgnoreAux fuel rest
    else if b < 0xF0 then
      match rest with
      | [] => []
      | c1 :: rest2 =>
        if utf8Cont1Ok b c1 then
          match rest2 with
          | [] => []
          | c2 :: rest3 =>
            if utf8Cont c2 then
              Char.ofNat ((b - 0xE0) * 0x1000 + (c1 - 0x80) * 0x40 + (c2 - 0x80)) :: utf8IgnoreAux fuel rest3
            else utf8IgnoreAux fuel rest2
        else utf8IgnoreAux fuel rest
    else if b < 0xF5 then
      match rest with
      | [] => []
      | c1 :: rest2 =>
        if utf8Cont1Ok b c1 then
          match rest2 with
          | [] => []
          | c2 :: rest3 =>
            if utf8Cont c2 then
              match rest3 with
              | [] => []
              | c3 :: rest4 =>
                if utf8Cont c3 then
                  Char.ofNat ((b - 0xF0) * 0x40000 + (c1 - 0x80) * 0x1000 + (c2 - 0x80) * 0x40 + (c3 - 0x80)) :: utf8IgnoreAux fuel rest4
                else utf8IgnoreAux fuel rest3
            else utf8IgnoreAux fuel rest2
        else utf8IgnoreAux fuel rest
    else utf8IgnoreAux fuel rest

/-- `bytes.decode('utf-8', errors='ignore')`. -/
def utf8Ignore (bs : List Nat) : String := ⟨utf8IgnoreAux bs.length bs⟩

/-! ### judge.py — Code Executor Client -/

/-- `LANGUAGE_MAP` of judge.py (the REST path supports eight languages). -/
def LANGUAGE_MAP : List (String × Nat) :=
  [("python", 71), ("javascript", 63), ("java", 62), ("cpp", 54),
   ("c", 50), ("go", 60), ("rust", 73), ("typescript", 74)]

/-- Python `dict.get(key)` on a string-keyed association list. -/
def dictGet (m : List (String × Nat)) (k : String) : Option Nat :=
  (m.find? (fun p => p.1 = k)).map (fun p => p.2)

/-- The JSON body of a 200 response of `GET /submissions/{token}` from the
remote judge (Judge0), before decoding: `status` is modelled by its `id` field
(`status.get("id", 0)` is the only use), text fields are still
transport-encoded, absent JSON fields are `none`. `time`/`memory` are opaque
to the core; they are modelled as integers. -/
structure RawPayload where
  statusId : Option Nat
  stdout : Option String
  stderr : Option String
  compile_output : Option String
  time : Option Int
  memory : Option Int
deriving DecidableEq, Repr

/-- `CodeResultResponse` as built by `get_submission_result` (status modelled
by its `id`). -/
structure CodeResultResponse where
  statusId : Option Nat
  stdout : Option String
  stderr : Option String
  compile_output : Option String
  time : Option Int
  memory : Option Int
deriving DecidableEq, Repr

/-- `result.status.get("id", 0)`. -/
def statusIdOf (r : CodeResultResponse) : Nat := r.statusId.getD 0

/-- The decode step of `get_submission_result` for one text field:
`if result.get(f): result[f] = base64.b64decode(result[f]).decode('utf-8',
errors='ignore')`.  A falsy field (absent or empty) is left as-is; a truthy
field is base64-decoded (`.error` models the uncaught `binascii.Error` raise)
and then UTF-8-decoded with invalid bytes ignored (total, never raises). -/
def decodeB64Field (f : Option String) : Except String (Option String) :=
  match f with
  | none => Except.ok none
  | some s =>
    if s = "" then Except.ok (some "")
    else
      match b64decode s with
      | none => Except.error "binascii.Error: Invalid base64-encoded string"
      | some bs => Except.ok (some (utf8Ignore bs))

/-- `get_submission_result` (judge.py, lines 86-125), given the parsed JSON of
a 200 response: decodes the `stdout`, `stderr` and `compile_output` fields and
builds the `CodeResultResponse`.  Transport-level failures (non-200, HTTP
timeout) are outside this model, which starts from the parsed body. -/
def get_submission_result (p : RawPayload) : Except String CodeResultResponse := do
  let so ← decodeB64Field p.stdout
  let se ← decodeB64Field p.stderr
  let co ← decodeB64Field p.compile_output
  Except.ok ⟨p.statusId, so, se, co, p.time, p.memory⟩

/-- Whether a raw field will pass the decode step without raising: falsy
(absent/empty) fields are not decoded at all, truthy ones need valid base64. -/
def fieldDecodes (f : Option String) : Bool :=
  match f with
  | none => true
  | some s => s = "" || (b64decode s).isSome

/-! ### judge.py — Test Runner (`run_code_tests`, lines 127-251)

The remote judge is an oracle `fetch : Nat → Option CodeResultResponse` per
test case, giving for each polling attempt either the decoded result of
`get_submission_result` or `none` for a raised exception (the `except
Exception: pass` in the polling loop swallows it).  Per-test submission
(`submit_code`) is modelled as succeeding — its HTTP failures raise out of
`run_code_tests` entirely and are surfaced by the caller, not recorded per
test.  The database write at the end is the caller's persistence concern and
has no effect on the returned value. -/

/-- One test case of a `CodingTask` (`task.test_cases[i]`). -/
structure TestCase where
  input : String
  expected_output : String
deriving DecidableEq, Repr

/-- The `CodingTask` columns read by `run_code_tests`. -/
structure CodingTask where
  test_cases : List TestCase
deriving DecidableEq, Repr

/-- One entry of `test_results`.  Keys absent from the corresponding Python
dict are `none` (`error` is only present on failure entries, `time`/`memory`
only on accepted-status entries). -/
structure TestEntry where
  test_case : Nat
  passed : Bool
  expected : String
  actual : Option String
  error : Option String
  time : Option Int
  memory : Option Int
deriving DecidableEq, Repr

/-- The polling loop of `run_code_tests` (lines 169-184): up to 30 attempts;
a raised fetch is swallowed and `result` keeps its previous value; a fetched
result with status id in {1, 2} is stored and polling continues; any other
status breaks with that result.  Arguments: fetch oracle, remaining attempts,
next attempt index, current `result`. -/
def judge_poll (fetch : Nat → Option CodeResultResponse) :
    Nat → Nat → Option CodeResultResponse → Option CodeResultResponse
  | 0, _, acc => acc
  | fuel + 1, i, acc =>
    match fetch i with
    | none => judge_poll fetch fuel (i + 1) acc
    | some r =>
      if statusIdOf r = 1 ∨ statusIdOf r = 2 then judge_poll fetch fuel (i + 1) (some r)
      else some r

/-- The body of `run_code_tests`'s per-test loop (lines 153-223) for the `i`-th
(0-based) test case. -/
def run_one_test (i : Nat) (tc : TestCase) (fetch : Nat → Option CodeResultResponse) :
    TestEntry :=
  let expected := pyStrip tc.expected_output
  match judge_poll fetch 30 0 none with
  | none =>
    { test_case := i + 1, passed := false, expected := expected,
      actual := none, error := some "Execution timeout", time := none, memory := none }
  | some r =>
    let actual := pyStrip (r.stdout.getD "")
    if statusIdOf r = 3 then
      { test_case := i + 1, passed := actual = expected, expected := expected,
        actual := some actual, error := none, time := r.time, memory := r.memory }
    else
      { test_case := i + 1, passed := false, expected := expected,
        actual := some actual,
        error := some (pyOrStr r.stderr (pyOrStr r.compile_output "Unknown error")),
        time := none, memory := none }

/-- `for i, test_case in enumerate(task.test_cases)`: every test case is
processed in order, no matter how earlier ones fared. -/
def run_tests_loop (fetch : Nat → Nat → Option CodeResultResponse) :
    List TestCase → Nat → List TestEntry
  | [], _ => []
  | tc :: rest, i => run_one_test i tc (fetch i) :: run_tests_loop fetch rest (i + 1)

/-- The value returned by `run_code_tests` (score as an exact rational — the
Python float arithmetic is modelled exactly). -/
structure RunTestsResult where
  score : ℚ
  passed_tests : Nat
  total_tests : Nat
  test_results : List TestEntry
deriving DecidableEq, Repr

/-- `run_code_tests(task_id, source_code, language, db)`: the task lookup is
modelled by an `Option CodingTask` (`none` = absent row, raising the 404
`HTTPException`), the unsupported-language check raises the 400, then every
test case runs and the score is `(passed / total) * 100` (0 when there are no
test cases).  `passed_tests` is incremented exactly for entries appended with
`passed = True`, i.e. it equals the count of passed entries. -/
def run_code_tests (task : Option CodingTask) (language : String)
    (fetch : Nat → Nat → Option CodeResultResponse) : Except String RunTestsResult :=
  match task with
  | none => Except.error "Coding task not found"
  | some t =>
    match dictGet LANGUAGE_MAP (pyLower language) with
    | none => Except.error ("Unsupported language: " ++ language)
    | some _ =>
      let results := run_tests_loop fetch t.test_cases 0
      let passed := (results.filter (fun e => e.passed)).length
      let total := t.test_cases.length
      let score : ℚ := if total > 0 then (passed : ℚ) / (total : ℚ) * 100 else 0
      Except.ok ⟨score, passed, total, results⟩

/-! ### ws_coding.py — CodingSessionManager

Timestamps (`datetime.utcnow()`) are integer microseconds.  The WebSocket
itself is not part of the state: outbound traffic is returned as a list of
messages (everything the handlers pass to `send_message` while the session is
registered). -/

/-- One element of `self.code_snapshots[session_id]` (a dict with keys
`code`, `timestamp`, `cursor`; the opaque cursor payload is modelled as a
string). -/
structure Snapshot where
  code : String
  timestamp : Int
  cursor : String
deriving DecidableEq, Repr

/-- One element of `connection["paste_events"]`. -/
structure PasteRecord where
  content : String
  timestamp : Int
  length : Nat
deriving DecidableEq, Repr

/-- `self.active_connections[session_id]` (the `websocket` handle is not
modelled; outbound messages are collected separately). -/
structure Conn where
  task_id : String
  last_code : String
  last_activity : Int
  paste_events : List PasteRecord
  tab_switches : Nat
deriving DecidableEq, Repr

/-- Outbound wire messages (the JSON dicts passed to `send_message`).
`runResult`/`submitResult` carry their payload on success and the `error`
string on failure, mirroring the two dict shapes in the source. -/
inductive OutMsg where
  | editAck (timestamp : Int)
  | runResult (success : Bool) (result : Option CodeResultResponse) (error : Option String)
  | submitResult (success : Bool) (result : Option RunTestsResult) (error : Option String)
  | proctorAlert (event : String) (message : String) (severity : String)
  | errorMsg (message : String)
deriving DecidableEq, Repr

/-- The snapshot condition of `_handle_code_edit` (lines 105-109): first
snapshot, or more than 50 characters longer than the last snapshot's code, or
more than 30 seconds since the last snapshot. -/
def should_snapshot (code : String) (now : Int) (snaps : List Snapshot) : Bool :=
  match snaps.getLast? with
  | none => true
  | some last =>
    decide ((code.length : Int) - (last.code.length : Int) > 50) ||
    decide (now - last.timestamp > 30 * 1000000)

/-- `if len(snapshots) > 20: snapshots.pop(0)` — keep only last 20. -/
def capSnapshots (s : List Snapshot) : List Snapshot :=
  if s.length > 20 then s.tail else s

/-- The snapshot-list effect of `_handle_code_edit` (lines 102-120). -/
def snapshot_update (code cursor : String) (now : Int) (snaps : List Snapshot) :
    List Snapshot :=
  if should_snapshot code now snaps then capSnapshots (snaps ++ [⟨code, now, cursor⟩])
  else snaps

/-- `_handle_code_edit` (lines 91-126): updates `last_code`/`last_activity`,
applies the snapshot policy, sends an `edit_ack`. -/
def handle_code_edit (code cursor : String) (now : Int) (conn : Conn)
    (snaps : List Snapshot) : Conn × List Snapshot × List OutMsg :=
  ({ conn with last_code := code, last_activity := now },
   snapshot_update code cursor now snaps,
   [OutMsg.editAck now])

/-- `_handle_paste_event` (lines 238-257): records the paste (content truncated
to 200 characters, original length kept) and alerts when the original length
exceeds 100. -/
def handle_paste_event (content : String) (now : Int) (conn : Conn) :
    Conn × List OutMsg :=
  ({ conn with paste_events :=
      conn.paste_events ++ [⟨content.take 200, now, content.length⟩] },
   if content.length > 100 then
     [OutMsg.proctorAlert "large_paste" "Large code paste detected" "medium"]
   else [])

/-- `_handle_tab_switch` (lines 259-272): increments the counter and alerts
once it exceeds 5, embedding the current count in the message. -/
def handle_tab_switch (conn : Conn) : Conn × List OutMsg :=
  let c := conn.tab_switches + 1
  ({ conn with tab_switches := c },
   if c > 5 then
     [OutMsg.proctorAlert "excessive_tab_switching"
        ("Multiple tab switches detected (" ++ toString c ++ ")") "high"]
   else [])

/-- The `language_map` local to `_handle_run_code` (five languages — narrower
than judge.py's `LANGUAGE_MAP`). -/
def WS_LANGUAGE_MAP : List (String × Nat) :=
  [("python", 71), ("javascript", 63), ("java", 62), ("cpp", 54), ("c", 50)]

/-- The polling loop of `_handle_run_code` (lines 167-178): up to 15 attempts,
no inner `try`, so a raised fetch propagates to the handler's `except`.
Returns the final `result` (or the raised message) and the number of fetch
attempts made.  Arguments: fetch oracle, remaining attempts, next attempt
index, current `result`. -/
def run_code_poll (fetch : Nat → Except String CodeResultResponse) :
    Nat → Nat → Option CodeResultResponse → Except String (Option CodeResultResponse) × Nat
  | 0, i, acc => (Except.ok acc, i)
  | fuel + 1, i, acc =>
    match fetch i with
    | Except.error e => (Except.error e, i + 1)
    | Except.ok r =>
      if statusIdOf r = 1 ∨ statusIdOf r = 2 then run_code_poll fetch fuel (i + 1) (some r)
      else (Except.ok (some r), i + 1)

/-- `_handle_run_code` (lines 128-204): language check, submission (modelled by
its outcome `submit`; a raise lands in the handler's `except`), 15-attempt
poll, then `if result:` — a `CodeResultResponse` object is always truthy, so
the success message is sent whenever the final `result` is not `None`.
Returns the sent messages and the number of fetch attempts made. -/
def handle_run_code (code language stdin : String) (submit : Except String Unit)
    (fetch : Nat → Except String CodeResultResponse) : List OutMsg × Nat :=
  match dictGet WS_LANGUAGE_MAP (pyLower language) with
  | none => ([OutMsg.runResult false none (some ("Unsupported language: " ++ language))], 0)
  | some _ =>
    match submit with
    | Except.error e => ([OutMsg.runResult false none (some e)], 0)
    | Except.ok _ =>
      match run_code_poll fetch 15 0 none with
      | (Except.error e, n) => ([OutMsg.runResult false none (some e)], n)
      | (Except.ok none, n) => ([OutMsg.runResult false none (some "Execution timeout")], n)
      | (Except.ok (some r), n) => ([OutMsg.runResult true (some r) none], n)

/-- `_handle_submit_code` (lines 206-236): delegates to `run_code_tests` for
the connection's task; an exception becomes a failure `submit_result`. -/
def handle_submit_code (task : Option CodingTask) (language : String)
    (fetch : Nat → Nat → Option CodeResultResponse) : List OutMsg :=
  match run_code_tests task language fetch with
  | Except.ok res => [OutMsg.submitResult true (some res) none]
  | Except.error e => [OutMsg.submitResult false none (some e)]

/-- The manager's two module-level dicts.  Python dicts keyed by session id are
modelled as functions to `Option`. -/
structure ManagerState where
  active_connections : String → Option Conn
  code_snapshots : String → Option (List Snapshot)

/-- Dict update / deletion: `d[k] = v` is `upd d k (some v)`, `del d[k]` is
`upd d k none`. -/
def upd {α : Type} (f : String → Option α) (k : String) (v : Option α) :
    String → Option α :=
  fun k2 => if k2 = k then v else f k2

/-- `connect` (lines 23-40): registers a fresh `Session Connection` (replacing
any prior entry for the id) and creates an empty snapshot list only when the
session has none. -/
def connect (st : ManagerState) (sid task_id : String) (now : Int) : ManagerState :=
  { active_connections :=
      upd st.active_connections sid (some ⟨task_id, "", now, [], 0⟩),
    code_snapshots :=
      match st.code_snapshots sid with
      | none => upd st.code_snapshots sid (some [])
      | some _ => st.code_snapshots }

/-- `disconnect` (lines 42-46): removes the connection entry, touching nothing
else. -/
def disconnect (st : ManagerState) (sid : String) : ManagerState :=
  { st with active_connections := upd st.active_connections sid none }

/-- `send_message` (lines 48-52): delivers only when the session is registered,
otherwise silently does nothing. -/
def send_message (st : ManagerState) (sid : String) (m : OutMsg) : List OutMsg :=
  match st.active_connections sid with
  | some _ => [m]
  | none => []

/-- Inbound messages (the parsed JSON envelopes), by their `type`
discriminator; `other` covers any unknown type string. -/
inductive InMsg where
  | code_edit (code cursor : String)
  | run_code (code language input : String)
  | submit_code (code language : String)
  | paste_event (content : String)
  | tab_switch
  | other (t : String)

/-- The environment of one `handle_message` call: the current wall-clock time
and the behavior of the external collaborators (submission outcome, fetch
oracles, task lookup). -/
structure Env where
  now : Int
  submit : Except String Unit
  fetch : Nat → Except String CodeResultResponse
  task : String → Option CodingTask
  test_fetch : Nat → Nat → Option CodeResultResponse

/-- `handle_message` (lines 54-89): silently returns when the session id is not
registered; otherwise dispatches on the `type` discriminator.  The messages the
handlers send while registered are returned alongside the updated state.  The
`code_edit` branch reads `self.code_snapshots[session_id]`; a missing entry
raises `KeyError`, which the surrounding `except` turns into an `error` event
(that branch is unreachable after `connect`). -/
def handle_message (env : Env) (st : ManagerState) (sid : String) (msg : InMsg) :
    ManagerState × List OutMsg :=
  match st.active_connections sid with
  | none => (st, [])
  | some conn =>
    match msg with
    | InMsg.code_edit code cursor =>
      match st.code_snapshots sid with
      | none => (st, [OutMsg.errorMsg ("Error handling message: " ++ sid)])
      | some snaps =>
        let r := handle_code_edit code cursor env.now conn snaps
        ({ active_connections := upd st.active_connections sid (some r.1),
           code_snapshots := upd st.code_snapshots sid (some r.2.1) },
         r.2.2)
    | InMsg.run_code code language inp =>
      (st, (handle_run_code code language inp env.submit env.fetch).1)
    | InMsg.submit_code _ language =>
      (st, handle_submit_code (env.task conn.task_id) language env.test_fetch)
    | InMsg.paste_event content =>
      let r := handle_paste_event content env.now conn
      ({ st with active_connections := upd st.active_connections sid (some r.1) }, r.2)
    | InMsg.tab_switch =>
      let r := handle_tab_switch conn
      ({ st with active_connections := upd st.active_connections sid (some r.1) }, r.2)
    | InMsg.other t =>
      (st, [OutMsg.errorMsg ("Unknown message type: " ++ t)])

/-! ### Concrete fixtures used by witnesses and counterexamples -/

/-- A judge response that is still in progress (status id 1, "In Queue"). -/
def procResult : CodeResultResponse := ⟨some 1, none, none, none, none, none⟩

/-- An accepted judge response printing `6`. -/
def accepted6 : CodeResultResponse := ⟨some 3, some "6\n", none, none, some 10, some 2000⟩

/-- A two-test task (expected outputs `6` and `0`). -/
def task60 : CodingTask := ⟨[⟨"", "6"⟩, ⟨"", "0"⟩]⟩

/-- A fresh connection as built by `connect`. -/
def conn0 : Conn := ⟨"task1", "", 0, [], 0⟩

/-- The empty manager state (no sessions ever connected). -/
def st0 : ManagerState := ⟨fun _ => none, fun _ => none⟩

/-- A concrete environment for witnesses. -/
def env0 : Env := ⟨0, Except.ok (), fun _ => Except.ok procResult, fun _ => none, fun _ _ => none⟩

/-- A snapshot with empty code at time 0. -/
def snapA : Snapshot := ⟨"", 0, ""⟩

/-- A 50-character code string. -/
def code50 : String := ⟨List.replicate 50 'a'⟩

/-- The snapshot condition as the spec words it, for comparison with the
source's `should_snapshot`: "at least 50 characters longer ... OR at least 30
seconds have elapsed" (non-strict bounds). -/
def spec_should_snapshot (code : String) (now : Int) (snaps : List Snapshot) : Bool :=
  match snaps.getLast? with
  | none => true
  | some last =>
    decide ((code.length : Int) - (last.code.length : Int) ≥ 50) ||
    decide (now - last.timestamp ≥ 30 * 1000000)

/-! ### Iterated tab-switch handling (for the proctoring claim) -/

/-- State of the connection after `n` `tab_switch` messages. -/
def tab_run (conn : Conn) : Nat → Conn
  | 0 => conn
  | n + 1 => (handle_tab_switch (tab_run conn n)).1

theorem tab_run_count (conn : Conn) (n : Nat) :
    (tab_run conn n).tab_switches = conn.tab_switches + n := by
  induction n with
  | zero => rfl
  | succ k ih => simp [tab_run, handle_tab_switch, ih]; omega

deriving instance DecidableEq for Except

/-! ### Claim theorems -/

/-- C1: the claim says a `run_code` whose 15 polls never observe a terminal
status yields `run_result` with `success=false` and an "Execution timeout"
error.  The code disagrees: after 15 non-terminal fetches `result` holds the
last (truthy) response object, so `if result:` takes the success branch and the
client receives `success=True` carrying the still-in-progress result; exactly
15 fetch attempts are made.  The "Execution timeout" branch is dead code on
this path. -/
theorem run_code_nonterminal_poll_sends_success_true :
    handle_run_code "print(1)" "python" "" (Except.ok ())
      (fun _ => Except.ok procResult)
      = ([OutMsg.runResult true (some procResult) none], 15) := by
  decide

/-- C3: the claim says a test case whose 30 polls never yield a terminal
result is recorded as failed with an "Execution timeout" marker.  The code
disagrees when the fetches succeed with a non-terminal status: `result` is then
not `None`, so the `if not result` timeout branch is skipped and the entry is
recorded with `error = "Unknown error"` (from empty stderr/compile_output)
instead.  Both test cases of the task are still attempted (no
short-circuiting), as the claim also states. -/
theorem run_tests_nonterminal_poll_marker_is_unknown_error :
    run_code_tests (some task60) "python" (fun _ _ => some procResult)
      = Except.ok ⟨0, 0, 2,
          [⟨1, false, "6", some "", some "Unknown error", none, none⟩,
           ⟨2, false, "0", some "", some "Unknown error", none, none⟩]⟩ := by
  have h : run_tests_loop (fun _ _ => some procResult) task60.test_cases 0 =
      [⟨1, false, "6", some "", some "Unknown error", none, none⟩,
       ⟨2, false, "0", some "", some "Unknown error", none, none⟩] := by decide
  have hl : dictGet LANGUAGE_MAP (pyLower "python") = some 71 := by decide
  simp only [run_code_tests, hl, h]
  norm_num [task60]

/-- C6: starting from a fresh session (counter 0), every `tab_switch` message
increments the counter by one (the counter after the `k`-th message is `k`),
and message `k + 1` emits exactly one `proctor_alert` with kind
`excessive_tab_switching`, severity `high` and the current count in its text
when `k + 1 > 5` — i.e. on the 6th and every subsequent message — and emits
nothing on the first five. -/
theorem tab_switch_alerts_on_sixth_and_after (conn : Conn)
    (h : conn.tab_switches = 0) (k : Nat) :
    (tab_run conn k).tab_switches = k ∧
    (handle_tab_switch (tab_run conn k)).1.tab_switches = k + 1 ∧
    (handle_tab_switch (tab_run conn k)).2 =
      (if k + 1 > 5 then
        [OutMsg.proctorAlert "excessive_tab_switching"
          ("Multiple tab switches detected (" ++ toString (k + 1) ++ ")") "high"]
       else []) := by
  have hc : (tab_run conn k).tab_switches = k := by rw [tab_run_count, h]; omega
  refine ⟨hc, ?_, ?_⟩
  · simp [handle_tab_switch, hc]
  · simp only [handle_tab_switch, hc]

/-- Witness for the tab-switch claim at a fresh connection and `k = 5`: the
6th message carries the alert with count 6. -/
theorem tab_switch_alerts_on_sixth_and_after_witness :
    (tab_run conn0 5).tab_switches = 5 ∧
    (handle_tab_switch (tab_run conn0 5)).1.tab_switches = 6 ∧
    (handle_tab_switch (tab_run conn0 5)).2 =
      (if 5 + 1 > 5 then
        [OutMsg.proctorAlert "excessive_tab_switching"
          ("Multiple tab switches detected (" ++ toString (5 + 1) ++ ")") "high"]
       else []) :=
  tab_switch_alerts_on_sixth_and_after conn0 rfl 5

/-- C7: every `paste_event` appends a record holding the content truncated to
its first 200 characters together with the full original length, and emits a
`large_paste`/`medium` `proctor_alert` exactly when the original length
exceeds 100 characters (so length 101 alerts and length 100 does not). -/
theorem paste_event_truncates_and_alerts_above_100 (content : String) (now : Int)
    (conn : Conn) :
    (handle_paste_event content now conn).1 =
      { conn with paste_events :=
          conn.paste_events ++ [⟨content.take 200, now, content.length⟩] } ∧
    (handle_paste_event content now conn).2 =
      (if 100 < content.length then
        [OutMsg.proctorAlert "large_paste" "Large code paste detected" "medium"]
       else []) := by
  exact ⟨rfl, rfl⟩

/-- C2 counterexample: with one snapshot (empty code, time 0), an edit whose
code is exactly 50 characters longer arriving exactly 30 seconds later
satisfies the claim's "at least 50 characters / at least 30 seconds" condition
but the code (strict `> 50` / `> 30`) appends no snapshot — the list stays
`[snapA]`. -/
theorem code_edit_boundary_counterexample :
    spec_should_snapshot code50 (30 * 1000000) [snapA] = true ∧
    should_snapshot code50 (30 * 1000000) [snapA] = false ∧
    (handle_code_edit code50 "" (30 * 1000000) conn0 [snapA]).2.1 = [snapA] := by
  decide

/-- C2 amended: a `code_edit` appends a snapshot iff the snapshot list is
empty, or the new code is MORE than 50 characters longer than the most recent
snapshot's code, or MORE than 30 seconds have elapsed since the most recent
snapshot's timestamp; the very first edit always appends (list `[]` becomes
the single new snapshot), and when neither strict bound is crossed the list is
unchanged. -/
theorem code_edit_snapshot_policy (code cursor : String) (now : Int) (conn : Conn)
    (snaps : List Snapshot) :
    (snaps = [] → (handle_code_edit code cursor now conn snaps).2.1 = [⟨code, now, cursor⟩]) ∧
    (∀ last, snaps.getLast? = some last →
      ((code.length : Int) - (last.code.length : Int) > 50 ∨
        now - last.timestamp > 30 * 1000000) →
      (handle_code_edit code cursor now conn snaps).2.1 =
        capSnapshots (snaps ++ [⟨code, now, cursor⟩])) ∧
    (∀ last, snaps.getLast? = some last →
      (code.length : Int) - (last.code.length : Int) ≤ 50 →
      now - last.timestamp ≤ 30 * 1000000 →
      (handle_code_edit code cursor now conn snaps).2.1 = snaps) := by
  refine ⟨?_, ?_, ?_⟩
  · intro h
    subst h
    simp [handle_code_edit, snapshot_update, should_snapshot, capSnapshots]
  · intro last hlast hcond
    simp only [handle_code_edit, snapshot_update, should_snapshot, hlast]
    have : (decide ((code.length : Int) - (last.code.length : Int) > 50) ||
        decide (now - last.timestamp > 30 * 1000000)) = true := by
      simp only [Bool.or_eq_true, decide_eq_true_eq]
      omega
    rw [this]
    simp
  · intro last hlast h1 h2
    simp only [handle_code_edit, snapshot_update, should_snapshot, hlast]
    have : (decide ((code.length : Int) - (last.code.length : Int) > 50) ||
        decide (now - last.timestamp > 30 * 1000000)) = false := by
      simp; omega
    rw [this]
    simp

/-- Witness for the amended snapshot policy: the first edit of a session
appends exactly one snapshot. -/
theorem code_edit_snapshot_policy_witness :
    (handle_code_edit "x" "" 5 conn0 []).2.1 = [⟨"x", 5, ""⟩] :=
  (code_edit_snapshot_policy "x" "" 5 conn0 []).1 rfl

/-- C9: `disconnect` removes exactly the session's connection entry (other
sessions' entries and the whole snapshot store are untouched), and a
subsequent `connect` with the same identifier installs a fresh connection
entry while preserving an existing snapshot list, creating an empty one only
when the session has none; other sessions' snapshot entries are untouched. -/
theorem disconnect_connect_frame (st : ManagerState) (sid task_id : String) (now : Int) :
    (disconnect st sid).active_connections sid = none ∧
    (∀ s2, s2 ≠ sid → (disconnect st sid).active_connections s2 = st.active_connections s2) ∧
    (disconnect st sid).code_snapshots = st.code_snapshots ∧
    (connect st sid task_id now).active_connections sid = some ⟨task_id, "", now, [], 0⟩ ∧
    (∀ l, st.code_snapshots sid = some l →
      (connect st sid task_id now).code_snapshots sid = some l) ∧
    (st.code_snapshots sid = none →
      (connect st sid task_id now).code_snapshots sid = some []) ∧
    (∀ s2, s2 ≠ sid → (connect st sid task_id now).code_snapshots s2 = st.code_snapshots s2) := by
  refine ⟨?_, ?_, rfl, ?_, ?_, ?_, ?_⟩
  · simp [disconnect, upd]
  · intro s2 h; simp [disconnect, upd, h]
  · simp [connect, upd]
  · intro l h; simp [connect, h]
  · intro h; simp [connect, h, upd]
  · intro s2 h
    simp only [connect]
    cases hs : st.code_snapshots sid <;> simp [upd, h]

/-- Witness for the registry frame conditions, on a state holding one
connected session `s1`: disconnecting removes `s1` and leaves `s2`'s (absent)
entry alone, and reconnecting `s1` preserves its snapshot list. -/
theorem disconnect_connect_frame_witness :
    (disconnect (connect st0 "s1" "t1" 0) "s1").active_connections "s1" = none ∧
    (disconnect (connect st0 "s1" "t1" 0) "s1").active_connections "s2" =
      (connect st0 "s1" "t1" 0).active_connections "s2" ∧
    (connect (disconnect (connect st0 "s1" "t1" 0) "s1") "s1" "t2" 7).code_snapshots "s1" =
      some [] :=
  ⟨(disconnect_connect_frame (connect st0 "s1" "t1" 0) "s1" "t1" 0).1,
   (disconnect_connect_frame (connect st0 "s1" "t1" 0) "s1" "t1" 0).2.1 "s2" (by decide),
   (disconnect_connect_frame (disconnect (connect st0 "s1" "t1" 0) "s1") "s1" "t2" 7).2.2.2.2.1
     [] (by decide)⟩

/-- C10: an inbound message for a session id that is not in the
active-connections registry is a silent no-op — `handle_message` returns the
state unchanged and sends nothing (of any message type), and `send_message`
itself also delivers nothing for an unregistered session. -/
theorem unknown_session_message_is_noop (env : Env) (st : ManagerState) (sid : String)
    (msg : InMsg) (h : st.active_connections sid = none) :
    handle_message env st sid msg = (st, []) ∧ ∀ m, send_message st sid m = [] := by
  constructor
  · simp [handle_message, h]
  · intro m; simp [send_message, h]

/-- Witness: a `tab_switch` for the never-connected session `s1` on the empty
state changes nothing and sends nothing. -/
theorem unknown_session_message_is_noop_witness :
    handle_message env0 st0 "s1" InMsg.tab_switch = (st0, []) ∧
    ∀ m, send_message st0 "s1" m = [] :=
  unknown_session_message_is_noop env0 st0 "s1" InMsg.tab_switch rfl

/-! ### Test Runner: pass rule and score (C4) -/

theorem run_tests_loop_get? (fetch : Nat → Nat → Option CodeResultResponse) :
    ∀ (tcs : List TestCase) (i0 j : Nat),
      (run_tests_loop fetch tcs i0).get? j =
        (tcs.get? j).map (fun tc => run_one_test (i0 + j) tc (fetch (i0 + j))) := by
  intro tcs
  induction tcs with
  | nil => intro i0 j; simp [run_tests_loop]
  | cons tc rest ih =>
    intro i0 j
    cases j with
    | zero => simp [run_tests_loop]
    | succ k =>
      simp only [run_tests_loop, List.get?_cons_succ, ih (i0 + 1) k]
      have : i0 + 1 + k = i0 + (k + 1) := by omega
      rw [this]

theorem run_one_test_passed_iff (i : Nat) (tc : TestCase)
    (fetch : Nat → Option CodeResultResponse) :
    (run_one_test i tc fetch).passed = true ↔
      ∃ r, judge_poll fetch 30 0 none = some r ∧ statusIdOf r = 3 ∧
        pyStrip (r.stdout.getD "") = pyStrip tc.expected_output := by
  unfold run_one_test
  cases h : judge_poll fetch 30 0 none with
  | none => simp [h]
  | some r =>
    by_cases hs : statusIdOf r = 3
    · simp [h, hs]
    · simp [h, hs]

/-- C4: whenever `run_code_tests` completes, a test case is counted as passed
iff its poll ended on the accepted status (3) with trimmed actual stdout equal
to the trimmed expected output; `passed_tests` counts the passed entries,
`total_tests` is the number of the task's test cases, and the score is
`passed/total × 100` with score 0 (and no exception) for a task with zero
test cases. -/
theorem run_code_tests_pass_rule_and_score :
    (∀ (t : CodingTask) (language : String) (fetch : Nat → Nat → Option CodeResultResponse)
       (res : RunTestsResult),
       run_code_tests (some t) language fetch = Except.ok res →
       res.total_tests = t.test_cases.length ∧
       res.passed_tests = (res.test_results.filter (fun e => e.passed)).length ∧
       res.score = (if res.total_tests = 0 then (0 : ℚ)
                    else (res.passed_tests : ℚ) / (res.total_tests : ℚ) * 100) ∧
       (∀ j tc, t.test_cases.get? j = some tc →
          ∀ e, res.test_results.get? j = some e →
            (e.passed = true ↔
              ∃ r, judge_poll (fetch j) 30 0 none = some r ∧ statusIdOf r = 3 ∧
                pyStrip (r.stdout.getD "") = pyStrip tc.expected_output))) ∧
    (∀ (language : String) (fetch : Nat → Nat → Option CodeResultResponse),
       (dictGet LANGUAGE_MAP (pyLower language)).isSome = true →
       run_code_tests (some ⟨[]⟩) language fetch = Except.ok ⟨0, 0, 0, []⟩) := by
  constructor
  · intro t language fetch res heq
    cases hdg : dictGet LANGUAGE_MAP (pyLower language) with
    | none => simp [run_code_tests, hdg] at heq
    | some lid =>
      simp only [run_code_tests, hdg] at heq
      injection heq with h
      subst h
      refine ⟨rfl, rfl, ?_, ?_⟩
      · by_cases h0 : t.test_cases.length = 0
        · simp [h0]
        · have hpos : 0 < t.test_cases.length := Nat.pos_of_ne_zero h0
          simp [h0, hpos]
      · intro j tc hj e he
        rw [run_tests_loop_get? fetch t.test_cases 0 j, hj] at he
        simp only [Option.map_some', Option.some.injEq, Nat.zero_add] at he
        subst he
        exact run_one_test_passed_iff j tc (fetch j)
  · intro language fetch h
    cases hdg : dictGet LANGUAGE_MAP (pyLower language) with
    | none => rw [hdg] at h; simp at h
    | some lid => simp [run_code_tests, hdg, run_tests_loop]

/-- An accepted judge response whose stdout trims to `1`. -/
def accepted1 : CodeResultResponse := ⟨some 3, some " 1 ", none, none, none, none⟩

/-- Fetch oracle for `task60`: first test prints `6\n` (passes), second prints
`" 1 "` (accepted but wrong after trim). -/
def fetch61 (i : Nat) : Nat → Option CodeResultResponse :=
  fun _ => if i = 0 then some accepted6 else some accepted1

/-- The value `run_code_tests` returns on `task60` with `fetch61`. -/
def res61 : RunTestsResult :=
  ⟨50, 1, 2,
   [⟨1, true, "6", some "6", none, some 10, some 2000⟩,
    ⟨2, false, "0", some "1", none, none, none⟩]⟩

/-- Witness for the pass rule and score at a concrete run: one of two test
cases passes, giving score 50; the first entry's pass bit agrees with the
accepted-status-plus-trimmed-equality rule. -/
theorem run_code_tests_pass_rule_and_score_witness :
    res61.total_tests = 2 ∧
    res61.score = (if res61.total_tests = 0 then (0 : ℚ)
                   else (res61.passed_tests : ℚ) / (res61.total_tests : ℚ) * 100) ∧
    ((⟨1, true, "6", some "6", none, some 10, some 2000⟩ : TestEntry).passed = true ↔
      ∃ r, judge_poll (fetch61 0) 30 0 none = some r ∧ statusIdOf r = 3 ∧
        pyStrip (r.stdout.getD "") = pyStrip "6") ∧
    run_code_tests (some ⟨[]⟩) "python" fetch61 = Except.ok ⟨0, 0, 0, []⟩ := by
  have hrun : run_code_tests (some task60) "python" fetch61 = Except.ok res61 := by
    have hloop : run_tests_loop fetch61 task60.test_cases 0 =
        [⟨1, true, "6", some "6", none, some 10, some 2000⟩,
         ⟨2, false, "0", some "1", none, none, none⟩] := by decide
    have hl : dictGet LANGUAGE_MAP (pyLower "python") = some 71 := by decide
    simp only [run_code_tests, hl, hloop]
    norm_num [task60, res61]
  have h := run_code_tests_pass_rule_and_score.1 task60 "python" fetch61 res61 hrun
  refine ⟨h.1.trans (by decide), h.2.2.1, ?_, ?_⟩
  · have := h.2.2.2 0 ⟨"", "6"⟩ (by decide) ⟨1, true, "6", some "6", none, some 10, some 2000⟩
      (by rw [show res61.test_results = _ from rfl]; decide)
    exact this
  · exact run_code_tests_pass_rule_and_score.2 "python" fetch61 (by decide)

/-! ### Snapshot list invariants (C5) -/

/-- One `code_edit` message as seen by the snapshot policy: its code, cursor
payload, and arrival time. -/
structure Edit where
  code : String
  cursor : String
  time : Int
deriving DecidableEq, Repr

/-- Sequential processing of a list of `code_edit` messages, as far as the
snapshot list is concerned. -/
def apply_edits (snaps : List Snapshot) : List Edit → List Snapshot
  | [] => snaps
  | e :: rest => apply_edits (snapshot_update e.code e.cursor e.time snaps) rest

theorem mem_of_getLast?_eq {α : Type} {l : List α} {x : α}
    (h : l.getLast? = some x) : x ∈ l := by
  have hx : x ∈ l.getLast? := by rw [h]; rfl
  obtain ⟨hne, rfl⟩ := List.mem_getLast?_eq_getLast hx
  exact List.getLast_mem hne

/-- One snapshot-policy step preserves the bounded-sorted invariant, and keeps
all timestamps at most the current time. -/
theorem snapshot_update_inv (code cursor : String) (t : Int) (snaps : List Snapshot)
    (hlen : snaps.length ≤ 20)
    (hch : List.Chain' (fun a b => a.timestamp ≤ b.timestamp) snaps)
    (hub : ∀ s ∈ snaps, s.timestamp ≤ t) :
    (snapshot_update code cursor t snaps).length ≤ 20 ∧
    List.Chain' (fun a b => a.timestamp ≤ b.timestamp) (snapshot_update code cursor t snaps) ∧
    ∀ s ∈ snapshot_update code cursor t snaps, s.timestamp ≤ t := by
  unfold snapshot_update
  by_cases hss : should_snapshot code t snaps = true
  · rw [if_pos hss]
    have hch2 : List.Chain' (fun a b => a.timestamp ≤ b.timestamp)
        (snaps ++ [⟨code, t, cursor⟩]) := by
      rw [List.chain'_append]
      refine ⟨hch, List.chain'_singleton _, ?_⟩
      intro x hx y hy
      simp only [List.head?_cons, Option.mem_def, Option.some.injEq] at hy
      subst hy
      exact hub x (mem_of_getLast?_eq hx)
    have hub2 : ∀ s ∈ snaps ++ [⟨code, t, cursor⟩], s.timestamp ≤ t := by
      intro s hs
      rcases List.mem_append.mp hs with h | h
      · exact hub s h
      · simp only [List.mem_singleton] at h; subst h; exact le_refl t
    unfold capSnapshots
    by_cases hl : (snaps ++ [(⟨code, t, cursor⟩ : Snapshot)]).length > 20
    · rw [if_pos hl]
      refine ⟨?_, hch2.tail, ?_⟩
      · simp only [List.length_tail, List.length_append, List.length_singleton]
        omega
      · intro s hs
        exact hub2 s (List.mem_of_mem_tail hs)
    · rw [if_neg hl]
      exact ⟨by omega, hch2, hub2⟩
  · rw [if_neg hss]
    exact ⟨hlen, hch, hub⟩

/-- The invariant propagates through any monotonically-timed edit sequence. -/
theorem apply_edits_inv :
    ∀ (edits : List Edit) (snaps : List Snapshot) (t0 : Int),
      List.Chain (fun a b => a ≤ b) t0 (edits.map (fun e => e.time)) →
      snaps.length ≤ 20 →
      List.Chain' (fun a b => a.timestamp ≤ b.timestamp) snaps →
      (∀ s ∈ snaps, s.timestamp ≤ t0) →
      (apply_edits snaps edits).length ≤ 20 ∧
      List.Chain' (fun a b => a.timestamp ≤ b.timestamp) (apply_edits snaps edits) := by
  intro edits
  induction edits with
  | nil => intro snaps t0 _ hlen hch _; exact ⟨hlen, hch⟩
  | cons e rest ih =>
    intro snaps t0 hchain hlen hch hub
    simp only [List.map_cons, List.chain_cons] at hchain
    obtain ⟨ht0, hchain'⟩ := hchain
    have hub' : ∀ s ∈ snaps, s.timestamp ≤ e.time :=
      fun s hs => le_trans (hub s hs) ht0
    obtain ⟨hlen2, hch2, hub2⟩ :=
      snapshot_update_inv e.code e.cursor e.time snaps hlen hch hub'
    exact ih (snapshot_update e.code e.cursor e.time snaps) e.time hchain' hlen2 hch2 hub2

/-- C5: along any sequence of `code_edit` messages with non-decreasing arrival
times, every intermediate snapshot list (every prefix of the sequence, starting
from the empty list a fresh session gets) has at most 20 entries and is ordered
by non-decreasing capture timestamp; and when an append happens on a full list
of 20 the oldest (head) entry is the one evicted, the result being the tail of
the old list plus the new snapshot at the end (FIFO). -/
theorem snapshot_list_bounded_sorted_fifo :
    (∀ (edits : List Edit),
      List.Chain' (fun a b => a.time ≤ b.time) edits →
      ∀ n, (apply_edits [] (edits.take n)).length ≤ 20 ∧
        List.Chain' (fun a b => a.timestamp ≤ b.timestamp) (apply_edits [] (edits.take n))) ∧
    (∀ (code cursor : String) (t : Int) (snaps : List Snapshot),
      snaps.length = 20 → should_snapshot code t snaps = true →
      snapshot_update code cursor t snaps = snaps.tail ++ [⟨code, t, cursor⟩]) := by
  constructor
  · intro edits hch n
    have hpre : List.Chain' (fun a b => a.time ≤ b.time) (edits.take n) := hch.take n
    cases htake : edits.take n with
    | nil => simp [apply_edits]
    | cons e rest =>
      rw [htake] at hpre
      have hchain : List.Chain (fun a b => a ≤ b) e.time ((e :: rest).map (fun x => x.time)) := by
        simp only [List.map_cons, List.chain_cons]
        exact ⟨le_refl _, (List.chain_map (fun x : Edit => x.time)).mpr hpre⟩
      exact apply_edits_inv (e :: rest) [] e.time hchain (by simp) List.chain'_nil (by simp)
  · intro code cursor t snaps hlen hss
    unfold snapshot_update capSnapshots
    rw [if_pos hss, if_pos (by simp [hlen])]
    have hne : snaps ≠ [] := by
      intro h; rw [h] at hlen; simp at hlen
    exact List.tail_append_singleton_of_ne_nil hne

/-- A full snapshot list: 20 copies of the time-0 empty snapshot. -/
def snaps20 : List Snapshot := List.replicate 20 snapA

/-- A 51-character code string (strictly more than 50 longer than `snapA`). -/
def code51 : String := ⟨List.replicate 51 'a'⟩

/-- Witness for the snapshot invariants: a concrete two-edit sequence stays
within bounds and sorted, and a 21st append on a full list evicts the head. -/
theorem snapshot_list_bounded_sorted_fifo_witness :
    ((apply_edits [] (([⟨"a", "", 0⟩, ⟨"ab", "", 10⟩] : List Edit).take 2)).length ≤ 20 ∧
      List.Chain' (fun a b => a.timestamp ≤ b.timestamp)
        (apply_edits [] (([⟨"a", "", 0⟩, ⟨"ab", "", 10⟩] : List Edit).take 2))) ∧
    snapshot_update code51 "" 0 snaps20 = snaps20.tail ++ [⟨code51, 0, ""⟩] :=
  ⟨snapshot_list_bounded_sorted_fifo.1 [⟨"a", "", 0⟩, ⟨"ab", "", 10⟩]
     (List.chain'_cons.mpr ⟨by norm_num, List.chain'_singleton _⟩) 2,
   snapshot_list_bounded_sorted_fifo.2 code51 "" 0 snaps20 (by decide) (by decide)⟩

/-! ### Result decoding in the Code Executor Client (C8) -/

/-- What a raw field becomes after the decode step, when it does not raise. -/
def decodedField (f : Option String) : Option String :=
  match f with
  | none => none
  | some s => if s = "" then some "" else some (utf8Ignore ((b64decode s).getD []))

theorem decodeB64Field_ok (f : Option String) (h : fieldDecodes f = true) :
    decodeB64Field f = Except.ok (decodedField f) := by
  cases f with
  | none => rfl
  | some s =>
    by_cases hs : s = ""
    · subst hs; rfl
    · have hd : decide (s = "") = false := decide_eq_false hs
      simp only [fieldDecodes, hd, Bool.false_or] at h
      obtain ⟨bs, hb⟩ := Option.isSome_iff_exists.mp h
      simp [decodeB64Field, decodedField, hs, hb]

theorem decodeB64Field_err (f : Option String) (h : fieldDecodes f = false) :
    ∃ e, decodeB64Field f = Except.error e := by
  cases f with
  | none => simp [fieldDecodes] at h
  | some s =>
    by_cases hs : s = ""
    · subst hs; simp [fieldDecodes] at h
    · have hd : decide (s = "") = false := decide_eq_false hs
      simp only [fieldDecodes, hd, Bool.false_or] at h
      cases hb : b64decode s with
      | none =>
        exact ⟨"binascii.Error: Invalid base64-encoded string",
          by simp [decodeB64Field, hs, hb]⟩
      | some bs => rw [hb] at h; simp at h

/-- C8 counterexample: the claim says a decoding failure never causes
`fetch_result` to raise, but a payload whose `stdout` field is the malformed
base64 text `"a"` (one data character — `binascii` rejects it) makes
`get_submission_result` raise: the `b64decode` call is outside any
`try`/`except` that would absorb it. -/
theorem fetch_result_raises_on_malformed_base64 :
    (get_submission_result ⟨some 3, some "a", none, none, none, none⟩).isOk = false := by
  decide

/-- C8 amended: `get_submission_result` decodes each truthy (present and
non-empty) transport-encoded field by base64 and then UTF-8; the UTF-8 stage
never raises (invalid bytes are dropped, `errors='ignore'`), but the call
completes without raising iff every truthy field is well-formed base64 — a
malformed base64 field raises. -/
theorem fetch_result_decode_tolerance (p : RawPayload) :
    ((get_submission_result p).isOk = true ↔
      (fieldDecodes p.stdout = true ∧ fieldDecodes p.stderr = true ∧
       fieldDecodes p.compile_output = true)) ∧
    (fieldDecodes p.stdout = true → fieldDecodes p.stderr = true →
      fieldDecodes p.compile_output = true →
      get_submission_result p =
        Except.ok ⟨p.statusId, decodedField p.stdout, decodedField p.stderr,
                   decodedField p.compile_output, p.time, p.memory⟩) := by
  have hok : fieldDecodes p.stdout = true → fieldDecodes p.stderr = true →
      fieldDecodes p.compile_output = true →
      get_submission_result p =
        Except.ok ⟨p.statusId, decodedField p.stdout, decodedField p.stderr,
                   decodedField p.compile_output, p.time, p.memory⟩ := by
    intro h1 h2 h3
    rw [get_submission_result, decodeB64Field_ok _ h1]
    show decodeB64Field p.stderr >>= _ = _
    rw [decodeB64Field_ok _ h2]
    show decodeB64Field p.compile_output >>= _ = _
    rw [decodeB64Field_ok _ h3]
    rfl
  refine ⟨⟨?_, ?_⟩, hok⟩
  · intro hisok
    have h1 : fieldDecodes p.stdout = true := by
      by_contra hh
      obtain ⟨e, he⟩ := decodeB64Field_err _ (Bool.eq_false_iff.mpr hh)
      rw [get_submission_result, he] at hisok
      simp [Except.isOk, Except.toBool, Bind.bind, Except.bind] at hisok
    have h2 : fieldDecodes p.stderr = true := by
      by_contra hh
      obtain ⟨e, he⟩ := decodeB64Field_err _ (Bool.eq_false_iff.mpr hh)
      rw [get_submission_result, decodeB64Field_ok _ h1] at hisok
      simp only [Bind.bind, Except.bind] at hisok
      rw [he] at hisok
      simp [Except.isOk, Except.toBool] at hisok
    have h3 : fieldDecodes p.compile_output = true := by
      by_contra hh
      obtain ⟨e, he⟩ := decodeB64Field_err _ (Bool.eq_false_iff.mpr hh)
      rw [get_submission_result, decodeB64Field_ok _ h1] at hisok
      simp only [Bind.bind, Except.bind] at hisok
      rw [decodeB64Field_ok _ h2] at hisok
      simp only [] at hisok
      rw [he] at hisok
      simp [Except.isOk, Except.toBool] at hisok
    exact ⟨h1, h2, h3⟩
  · rintro ⟨h1, h2, h3⟩
    rw [hok h1 h2 h3]
    rfl

/-- Witness: a payload with valid base64 `stdout` (`"aGk="` → `"hi"`) and an
empty `stderr` decodes without raising, empty fields passing through. -/
theorem fetch_result_decode_tolerance_witness :
    (get_submission_result ⟨some 3, some "aGk=", some "", none, none, none⟩).isOk = true ∧
    get_submission_result ⟨some 3, some "aGk=", some "", none, none, none⟩ =
      Except.ok ⟨some 3, some "hi", some "", none, none, none⟩ := by
  have h := fetch_result_decode_tolerance ⟨some 3, some "aGk=", some "", none, none, none⟩
  refine ⟨h.1.mpr ⟨by decide, by decide, by decide⟩, ?_⟩
  rw [h.2 (by decide) (by decide) (by decide)]
  decide

end AIHR
